import Mathlib

/-!
Shallow embedding of `druid-shell/examples/child_window.rs`: the two window
handlers (`HelloState`, `ChildHandler`), the menu built in `main`, and the
window-construction trace of `main`.  Handler callbacks are embedded as pure
functions from the handler state to a new state together with the list of
actions (effects) issued during the callback.  Library types that the example
uses (`Menu`, `WindowHandle`, `FileDialogOptions`, ...) live in the
druid-shell crate; where their behavior matters it is modelled from the spec,
as marked on each definition.
-/

namespace ChildWindow

/-- 2-D size (kurbo `Size`); the example only ever builds whole-number sizes,
so the two f64 fields are embedded as integers. -/
structure Size where
  width : Int
  height : Int
deriving DecidableEq

/-- `Size::default()`: zero size. -/
def Size.default : Size := ⟨0, 0⟩

/-- `Size::new(w, h)`. -/
def Size.new (w h : Int) : Size := ⟨w, h⟩

/-- 2-D point (kurbo `Point`), integer-embedded like `Size`. -/
structure Point where
  x : Int
  y : Int
deriving DecidableEq

/-- `Point::new(x, y)`. -/
def Point.new (x y : Int) : Point := ⟨x, y⟩

/-- Axis-aligned rectangle, as produced by `Size::to_rect()`. -/
structure Rect where
  x0 : Int
  y0 : Int
  x1 : Int
  y1 : Int
deriving DecidableEq

/-- `Size::to_rect()`: the rectangle from the origin with this size. -/
def Size.to_rect (s : Size) : Rect := ⟨0, 0, s.width, s.height⟩

/-- A line segment (kurbo `Line`). -/
structure Line where
  p0 : Point
  p1 : Point
deriving DecidableEq

/-- `Line::new(p0, p1)`. -/
def Line.new (p0 p1 : Point) : Line := ⟨p0, p1⟩

/-- An RGB color (piet `Color`), 8 bits per channel. -/
structure Color where
  r : Nat
  g : Nat
  b : Nat
deriving DecidableEq

/-- `Color::rgb8`. -/
def Color.rgb8 (r g b : Nat) : Color := ⟨r, g, b⟩

/-- `BG_COLOR` of the example. -/
def BG_COLOR : Color := Color.rgb8 0x27 0x28 0x22

/-- `FG_COLOR` of the example. -/
def FG_COLOR : Color := Color.rgb8 0xf0 0x80 0x8a

/-- `BG_COLOR_CHILD` of the example. -/
def BG_COLOR_CHILD : Color := Color.rgb8 0x47 0x48 0x42

/-- Modelled from the spec (the `WindowHandle` type lives in the druid-shell
crate, not in the example): a shared, cloneable reference to one live native
window, embedded as the identity of the backing native window; a default
handle refers to no window. -/
structure WindowHandle where
  window_id : Option Nat
deriving DecidableEq

/-- `WindowHandle::default()`: a handle bound to no native window. -/
def WindowHandle.default : WindowHandle := ⟨none⟩

/-- Modelled from the spec: cloning a handle shares identity, never
ownership — the clone refers to the same native window. -/
def WindowHandle.clone (h : WindowHandle) : WindowHandle := h

/-- Two handles refer to the same native window. -/
def WindowHandle.sameWindow (a b : WindowHandle) : Prop :=
  a.window_id = b.window_id

instance : DecidablePred fun p : WindowHandle × WindowHandle =>
    WindowHandle.sameWindow p.1 p.2 :=
  fun p => inferInstanceAs (Decidable (p.1.window_id = p.2.window_id))

/-- Mouse cursor kinds used by the example. -/
inductive Cursor where
  | Arrow
deriving DecidableEq

/-- Modelled from the spec: an extension group with a display label
(druid-shell `FileSpec`). -/
structure FileSpec where
  name : String
  extensions : List String
deriving DecidableEq

/-- `FileSpec::new(name, extensions)`. -/
def FileSpec.new (name : String) (extensions : List String) : FileSpec :=
  ⟨name, extensions⟩

/-- Modelled from the spec: the predefined plain-text extension group
`FileSpec::TEXT` of the druid-shell crate. -/
def FileSpec.TEXT : FileSpec := FileSpec.new "Text" ["txt"]

/-- Modelled from the spec: the predefined JPEG extension group
`FileSpec::JPG` of the druid-shell crate. -/
def FileSpec.JPG : FileSpec := FileSpec.new "Jpeg" ["jpg", "jpeg"]

/-- Modelled from the spec: the file-dialog configuration set (druid-shell
`FileDialogOptions`), enumerating the allowed file type filters and whether
hidden files are shown. -/
structure FileDialogOptions where
  show_hidden : Bool
  allowed_types : Option (List FileSpec)
deriving DecidableEq

/-- Modelled from the spec: `FileDialogOptions::new()` — no filters, hidden
files not shown. -/
def FileDialogOptions.new : FileDialogOptions := ⟨false, none⟩

/-- Modelled from the spec: builder method enabling display of hidden
files. -/
def FileDialogOptions.set_show_hidden (o : FileDialogOptions) :
    FileDialogOptions :=
  { o with show_hidden := true }

/-- Modelled from the spec: builder method installing the allowed
file-type filter list. -/
def FileDialogOptions.set_allowed_types (o : FileDialogOptions)
    (types : List FileSpec) : FileDialogOptions :=
  { o with allowed_types := some types }

/-- Correlation token for an async file-dialog request. -/
structure FileDialogToken where
  tok : Nat
deriving DecidableEq

/-- Correlation token for a timer request. -/
structure TimerToken where
  tok : Nat
deriving DecidableEq

/-- Result of a completed file dialog. -/
structure FileInfo where
  path : String
deriving DecidableEq

/-- Key event payload; the handlers only ever log it, so it is embedded
opaquely as a code. -/
structure KeyEvent where
  code : Nat
deriving DecidableEq

/-- Mouse event payload, embedded opaquely as a position. -/
structure MouseEvent where
  pos : Point
deriving DecidableEq

/-- Dirty region passed to `paint`; both example handlers ignore it. -/
structure Region where
  rects : List Rect
deriving DecidableEq

/-- Modifier sets for hotkeys; the example only uses `SysMods::Cmd`. -/
inductive SysMods where
  | Cmd
deriving DecidableEq

/-- A platform-independent accelerator: modifier set plus key. -/
structure HotKey where
  mods : SysMods
  key : String
deriving DecidableEq

/-- `HotKey::new(mods, key)`. -/
def HotKey.new (mods : SysMods) (key : String) : HotKey := ⟨mods, key⟩

/-- One entry of a menu: a leaf item carrying a command id, label, optional
hotkey and enabled/selected flags, or a labeled dropdown holding the entries
of a submenu. -/
inductive MenuEntry where
  | item (id : Nat) (label : String) (hotkey : Option HotKey)
      (enabled : Bool) (selected : Bool)
  | dropdown (entries : List MenuEntry) (label : String) (enabled : Bool)

/-- A menu: an ordered list of entries. -/
structure Menu where
  entries : List MenuEntry

/-- Modelled from the spec (druid-shell `Menu::new`): an empty menu. -/
def Menu.new : Menu := ⟨[]⟩

/-- Modelled from the spec (druid-shell `Menu::add_item`): appends a leaf
item. -/
def Menu.add_item (m : Menu) (id : Nat) (label : String)
    (hotkey : Option HotKey) (enabled selected : Bool) : Menu :=
  ⟨m.entries ++ [MenuEntry.item id label hotkey enabled selected]⟩

/-- Modelled from the spec (druid-shell `Menu::add_dropdown`): appends a
submenu under a top label. -/
def Menu.add_dropdown (m : Menu) (sub : Menu) (label : String)
    (enabled : Bool) : Menu :=
  ⟨m.entries ++ [MenuEntry.dropdown sub.entries label enabled]⟩

/-- The command id of a leaf entry (0 for a dropdown, which carries none). -/
def MenuEntry.commandId : MenuEntry → Nat
  | .item id _ _ _ _ => id
  | .dropdown _ _ _ => 0

/-- Whether an entry is a leaf item. -/
def MenuEntry.isLeaf : MenuEntry → Bool
  | .item _ _ _ _ _ => true
  | .dropdown _ _ _ => false

/-- Whether a leaf entry carries a hotkey. -/
def MenuEntry.hasHotkey : MenuEntry → Bool
  | .item _ _ (some _) _ _ => true
  | _ => false

/-- Whether an entry is enabled. -/
def MenuEntry.isEnabled : MenuEntry → Bool
  | .item _ _ _ e _ => e
  | .dropdown _ _ e => e

/-- The displayed form of a menu label: the mnemonic marker `&` is a
display hint, not part of the visible label text. -/
def stripMnemonic (s : String) : String :=
  String.mk (s.data.filter (fun c => c ≠ '&'))

/-- `MENU_EXIT` command id of the example. -/
def MENU_EXIT : Nat := 0x100

/-- `MENU_OPEN` command id of the example. -/
def MENU_OPEN : Nat := 0x101

/-- `MENU_LAYOUT` command id of the example. -/
def MENU_LAYOUT : Nat := 0x102

/-- Every externally visible action a handler callback can issue: window
handle actions, the global quit request, drawing operations of a paint
callback, and log output. -/
inductive Effect where
  | close (h : WindowHandle)
  | quit
  | open_file_req (h : WindowHandle) (options : FileDialogOptions)
  | set_cursor (h : WindowHandle) (c : Cursor)
  | show_window (h : WindowHandle)
  | fill (r : Rect) (c : Color)
  | stroke (l : Line) (c : Color) (width : Int)
  | log (msg : String)
  | logNat (tag : String) (n : Nat)
  | logKey (tag : String) (e : KeyEvent)
  | logMouse (tag : String) (e : MouseEvent)
  | logTimer (tag : String) (t : TimerToken)
  | logSizeVal (tag : String) (s : Size)
  | logFileInfo (tag : String) (info : Option FileInfo)
deriving DecidableEq

/-- An effect that is pure log output: no window-handle action, no
Application action, no drawing. -/
def Effect.isLog : Effect → Bool
  | .log _ => true
  | .logNat _ _ => true
  | .logKey _ _ => true
  | .logMouse _ _ => true
  | .logTimer _ _ => true
  | .logSizeVal _ _ => true
  | .logFileInfo _ _ => true
  | _ => false

/-- Handler state of the top-level window (`HelloState`): the cached size and
the stored window handle. -/
structure HelloState where
  size : Size
  handle : WindowHandle
deriving DecidableEq

/-- `HelloState::default()` (via `#[derive(Default)]`). -/
def HelloState.default : HelloState := ⟨Size.default, WindowHandle.default⟩

/-- `HelloState::connect`: store a clone of the delivered handle. -/
def HelloState.connect (st : HelloState) (handle : WindowHandle) :
    HelloState × List Effect :=
  ({ st with handle := handle.clone }, [])

/-- `HelloState::prepare_paint`: does nothing. -/
def HelloState.prepare_paint (st : HelloState) : HelloState × List Effect :=
  (st, [])

/-- `HelloState::paint`: fill the cached-size rectangle with the background
color and stroke one foreground line. -/
def HelloState.paint (st : HelloState) (_region : Region) :
    HelloState × List Effect :=
  (st, [Effect.fill st.size.to_rect BG_COLOR,
        Effect.stroke (Line.new (Point.new 10 50) (Point.new 90 90))
          FG_COLOR 1])

/-- The `FileDialogOptions` value built inside `HelloState::command` for
`MENU_OPEN`: show hidden files, and allow the three types Rust Files
(`rs`/`toml`), `FileSpec::TEXT` and `FileSpec::JPG`. -/
def helloOpenFileOptions : FileDialogOptions :=
  (FileDialogOptions.new.set_show_hidden).set_allowed_types
    [FileSpec.new "Rust Files" ["rs", "toml"], FileSpec.TEXT, FileSpec.JPG]

/-- `HelloState::command`: match on the command id — `MENU_EXIT` closes the
stored handle and quits the application, `MENU_OPEN` issues a file-open
request on the stored handle, `MENU_LAYOUT` does nothing, anything else is
logged. -/
def HelloState.command (st : HelloState) (id : Nat) :
    HelloState × List Effect :=
  if id = MENU_EXIT then
    (st, [Effect.close st.handle, Effect.quit])
  else if id = MENU_OPEN then
    (st, [Effect.open_file_req st.handle helloOpenFileOptions])
  else if id = MENU_LAYOUT then
    (st, [])
  else
    (st, [Effect.logNat "unexpected id" id])

/-- `HelloState::open_file` completion callback: logs the result. -/
def HelloState.open_file (st : HelloState) (_token : FileDialogToken)
    (file_info : Option FileInfo) : HelloState × List Effect :=
  (st, [Effect.logFileInfo "open file result" file_info])

/-- `HelloState::key_down`: logs the event and returns `false`. -/
def HelloState.key_down (st : HelloState) (event : KeyEvent) :
    HelloState × List Effect × Bool :=
  (st, [Effect.logKey "keydown" event], false)

/-- `HelloState::key_up`: logs the event. -/
def HelloState.key_up (st : HelloState) (event : KeyEvent) :
    HelloState × List Effect :=
  (st, [Effect.logKey "keyup" event])

/-- `HelloState::wheel`: logs the event. -/
def HelloState.wheel (st : HelloState) (event : MouseEvent) :
    HelloState × List Effect :=
  (st, [Effect.logMouse "mouse_wheel" event])

/-- `HelloState::mouse_move`: sets the Arrow cursor on the stored handle,
then logs the event. -/
def HelloState.mouse_move (st : HelloState) (event : MouseEvent) :
    HelloState × List Effect :=
  (st, [Effect.set_cursor st.handle Cursor.Arrow,
        Effect.logMouse "mouse_move" event])

/-- `HelloState::mouse_down`: logs the event. -/
def HelloState.mouse_down (st : HelloState) (event : MouseEvent) :
    HelloState × List Effect :=
  (st, [Effect.logMouse "mouse_down" event])

/-- `HelloState::mouse_up`: logs the event. -/
def HelloState.mouse_up (st : HelloState) (event : MouseEvent) :
    HelloState × List Effect :=
  (st, [Effect.logMouse "mouse_up" event])

/-- `HelloState::timer`: logs the token. -/
def HelloState.timer (st : HelloState) (id : TimerToken) :
    HelloState × List Effect :=
  (st, [Effect.logTimer "timer fired" id])

/-- `HelloState::size` callback (named `size_event` here because `size` is
the field projection): caches the new size. -/
def HelloState.size_event (st : HelloState) (size : Size) :
    HelloState × List Effect :=
  ({ st with size := size }, [])

/-- `HelloState::got_focus`: logs. -/
def HelloState.got_focus (st : HelloState) : HelloState × List Effect :=
  (st, [Effect.log "Got focus"])

/-- `HelloState::lost_focus`: logs. -/
def HelloState.lost_focus (st : HelloState) : HelloState × List Effect :=
  (st, [Effect.log "Lost focus"])

/-- `HelloState::request_close`: closes the stored handle. -/
def HelloState.request_close (st : HelloState) : HelloState × List Effect :=
  (st, [Effect.close st.handle])

/-- `HelloState::destroy`: quits the application. -/
def HelloState.destroy (st : HelloState) : HelloState × List Effect :=
  (st, [Effect.quit])

/-- Handler state of the child window (`ChildHandler`): cached size, stored
window handle, and a back-reference handle to the parent window. -/
structure ChildHandler where
  size : Size
  handle : WindowHandle
  parent_handle : WindowHandle
deriving DecidableEq

/-- `ChildHandler::connect`: store a clone of the delivered handle. -/
def ChildHandler.connect (st : ChildHandler) (handle : WindowHandle) :
    ChildHandler × List Effect :=
  ({ st with handle := handle.clone }, [])

/-- `ChildHandler::prepare_paint`: does nothing. -/
def ChildHandler.prepare_paint (st : ChildHandler) :
    ChildHandler × List Effect :=
  (st, [])

/-- `ChildHandler::paint`: log, fill the cached-size rectangle with the
child background color and stroke one foreground line. -/
def ChildHandler.paint (st : ChildHandler) (_region : Region) :
    ChildHandler × List Effect :=
  (st, [Effect.log "child paint",
        Effect.fill st.size.to_rect BG_COLOR_CHILD,
        Effect.stroke (Line.new (Point.new 10 90) (Point.new 90 50))
          FG_COLOR 1])

/-- `ChildHandler::paint_raw`: logs. -/
def ChildHandler.paint_raw (st : ChildHandler) : ChildHandler × List Effect :=
  (st, [Effect.log "child paint_raw"])

/-- `ChildHandler::command`: the match has only the catch-all arm — every id
is logged. -/
def ChildHandler.command (st : ChildHandler) (id : Nat) :
    ChildHandler × List Effect :=
  (st, [Effect.logNat "child unexpected id" id])

/-- `ChildHandler::open_file` completion callback: logs the result. -/
def ChildHandler.open_file (st : ChildHandler) (_token : FileDialogToken)
    (file_info : Option FileInfo) : ChildHandler × List Effect :=
  (st, [Effect.logFileInfo "child open file result" file_info])

/-- `ChildHandler::key_down`: logs the event and returns `false`. -/
def ChildHandler.key_down (st : ChildHandler) (event : KeyEvent) :
    ChildHandler × List Effect × Bool :=
  (st, [Effect.logKey "child keydown" event], false)

/-- `ChildHandler::key_up`: logs the event. -/
def ChildHandler.key_up (st : ChildHandler) (event : KeyEvent) :
    ChildHandler × List Effect :=
  (st, [Effect.logKey "child keyup" event])

/-- `ChildHandler::wheel`: logs the event. -/
def ChildHandler.wheel (st : ChildHandler) (event : MouseEvent) :
    ChildHandler × List Effect :=
  (st, [Effect.logMouse "child mouse_wheel" event])

/-- `ChildHandler::mouse_move`: sets the Arrow cursor on the stored handle,
then logs the event. -/
def ChildHandler.mouse_move (st : ChildHandler) (event : MouseEvent) :
    ChildHandler × List Effect :=
  (st, [Effect.set_cursor st.handle Cursor.Arrow,
        Effect.logMouse "child mouse_move" event])

/-- `ChildHandler::mouse_down`: logs the event. -/
def ChildHandler.mouse_down (st : ChildHandler) (event : MouseEvent) :
    ChildHandler × List Effect :=
  (st, [Effect.logMouse "child mouse_down" event])

/-- `ChildHandler::mouse_up`: logs the event. -/
def ChildHandler.mouse_up (st : ChildHandler) (event : MouseEvent) :
    ChildHandler × List Effect :=
  (st, [Effect.logMouse "child mouse_up" event])

/-- `ChildHandler::timer`: logs the token. -/
def ChildHandler.timer (st : ChildHandler) (id : TimerToken) :
    ChildHandler × List Effect :=
  (st, [Effect.logTimer "child timer fired" id])

/-- `ChildHandler::size` callback (named `size_event` here because `size` is
the field projection): log, then cache the new size. -/
def ChildHandler.size_event (st : ChildHandler) (size : Size) :
    ChildHandler × List Effect :=
  ({ st with size := size }, [Effect.logSizeVal "child size" size])

/-- `ChildHandler::got_focus`: logs. -/
def ChildHandler.got_focus (st : ChildHandler) : ChildHandler × List Effect :=
  (st, [Effect.log "child Got focus"])

/-- `ChildHandler::lost_focus`: logs. -/
def ChildHandler.lost_focus (st : ChildHandler) :
    ChildHandler × List Effect :=
  (st, [Effect.log "child Lost focus"])

/-- `ChildHandler::request_close`: closes the stored handle. -/
def ChildHandler.request_close (st : ChildHandler) :
    ChildHandler × List Effect :=
  (st, [Effect.close st.handle])

/-- `ChildHandler::destroy`: logs only. -/
def ChildHandler.destroy (st : ChildHandler) : ChildHandler × List Effect :=
  (st, [Effect.log "child destroy"])

/-- Fold a sequence of `size` callbacks through a `HelloState`. -/
def HelloState.applySizes (st : HelloState) : List Size → HelloState
  | [] => st
  | s :: rest => HelloState.applySizes (HelloState.size_event st s).1 rest

/-- Fold a sequence of `size` callbacks through a `ChildHandler`. -/
def ChildHandler.applySizes (st : ChildHandler) : List Size → ChildHandler
  | [] => st
  | s :: rest => ChildHandler.applySizes (ChildHandler.size_event st s).1 rest

/-- The concrete handler instance a builder is given. -/
inductive HandlerInstance where
  | hello (st : HelloState)
  | child (st : ChildHandler)

/-- Modelled from the spec: `WindowBuilder` is a single-use configuration
accumulator (handler, title, menu, parent, position, size), all fields
initially unset. -/
structure WindowBuilder where
  handler : Option HandlerInstance
  title : Option String
  menu : Option Menu
  parent : Option WindowHandle
  position : Option Point
  size : Option Size

/-- Modelled from the spec: `WindowBuilder::new(app)` — nothing configured
yet. -/
def WindowBuilder.new : WindowBuilder :=
  ⟨none, none, none, none, none, none⟩

/-- `WindowBuilder::set_handler`. -/
def WindowBuilder.set_handler (b : WindowBuilder) (h : HandlerInstance) :
    WindowBuilder :=
  { b with handler := some h }

/-- `WindowBuilder::set_title`. -/
def WindowBuilder.set_title (b : WindowBuilder) (t : String) :
    WindowBuilder :=
  { b with title := some t }

/-- `WindowBuilder::set_menu`. -/
def WindowBuilder.set_menu (b : WindowBuilder) (m : Menu) : WindowBuilder :=
  { b with menu := some m }

/-- `WindowBuilder::set_parent`: stores a clone of the parent handle. -/
def WindowBuilder.set_parent (b : WindowBuilder) (p : WindowHandle) :
    WindowBuilder :=
  { b with parent := some p.clone }

/-- `WindowBuilder::set_position`. -/
def WindowBuilder.set_position (b : WindowBuilder) (p : Point) :
    WindowBuilder :=
  { b with position := some p }

/-- `WindowBuilder::set_size`. -/
def WindowBuilder.set_size (b : WindowBuilder) (s : Size) : WindowBuilder :=
  { b with size := some s }

/-- `file_menu` as built in `main`: Open, Exit, Layout, in that order, each
enabled with a Cmd hotkey. -/
def file_menu : Menu :=
  ((Menu.new.add_item MENU_OPEN "O&pen"
      (some (HotKey.new SysMods.Cmd "o")) true false).add_item MENU_EXIT
      "E&xit" (some (HotKey.new SysMods.Cmd "q")) true false).add_item
    MENU_LAYOUT "Alt &Layout" (some (HotKey.new SysMods.Cmd "l")) true false

/-- `menubar` as built in `main`: one dropdown holding `file_menu` under the
label `&File`. -/
def menubar : Menu := Menu.new.add_dropdown file_menu "&File" true

/-- Modelled from the spec: the handle returned by the first successful
`build()` in `main` (the top-level window), bound to a fresh live native
window. -/
def mainWindow : WindowHandle := ⟨some 1⟩

/-- Modelled from the spec: the handle returned by the second successful
`build()` in `main` (the child window), bound to a distinct fresh live
native window. -/
def childWindow : WindowHandle := ⟨some 2⟩

/-- The top-level window's builder as configured in `main`. -/
def helloBuilder : WindowBuilder :=
  ((WindowBuilder.new.set_handler
      (HandlerInstance.hello HelloState.default)).set_title
    "Child window example").set_menu menubar

/-- The `ChildHandler` value constructed in `main`: default size, default
handle, and the top-level window's handle (a clone) as parent handle. -/
def childHandlerInit : ChildHandler :=
  ⟨Size.default, WindowHandle.default, mainWindow.clone⟩

/-- The child window's builder as configured in `main`: handler, parent =
the top-level window's handle, position (10, 10), size 200 × 150. -/
def childBuilder : WindowBuilder :=
  (((WindowBuilder.new.set_handler
        (HandlerInstance.child childHandlerInit)).set_parent
      mainWindow).set_position (Point.new 10 10)).set_size (Size.new 200 150)

/-- One observable step of `main`. -/
inductive MainStep where
  | build (b : WindowBuilder) (result : WindowHandle)
  | show_window (h : WindowHandle)
  | run

/-- The sequence of window-construction steps `main` performs, in program
order: build the top-level window, build the child window, show the child,
show the top-level window, then run the event loop. -/
def mainTrace : List MainStep :=
  [MainStep.build helloBuilder mainWindow,
   MainStep.build childBuilder childWindow,
   MainStep.show_window childWindow,
   MainStep.show_window mainWindow,
   MainStep.run]

/-- C1: delivering the Exit command id 0x100 to `HelloState::command` makes
the handler close its own stored window handle and then signal global quit
via the Application singleton, in that order. -/
theorem exit_command_closes_then_quits (st : HelloState) :
    HelloState.command st MENU_EXIT =
      (st, [Effect.close st.handle, Effect.quit]) := rfl

/-- C2 counterexample: delivering the Open command id 0x101 to
`HelloState::command` on the default state issues an open-file request whose
allowed-file-type filter list is NOT empty — it holds three file specs
(Rust Files, TEXT, JPG) — so the claim that the request carries an empty
filter list is false. -/
theorem open_command_filter_not_empty :
    (HelloState.command HelloState.default MENU_OPEN).2 =
      [Effect.open_file_req HelloState.default.handle
        helloOpenFileOptions] ∧
    helloOpenFileOptions.allowed_types ≠ some [] ∧
    helloOpenFileOptions.allowed_types ≠ none ∧
    helloOpenFileOptions.allowed_types =
      some [FileSpec.new "Rust Files" ["rs", "toml"], FileSpec.TEXT,
        FileSpec.JPG] := by
  refine ⟨rfl, ?_, ?_, rfl⟩ <;> decide

/-- C2 amended: delivering the Open command id 0x101 to
`HelloState::command` issues exactly one open-file request on the handler's
own stored handle, whose options enable show_hidden and carry a three-entry
allowed-file-type filter list (Rust Files rs/toml, TEXT, JPG); the handler
state is unchanged. -/
theorem open_command_request_options (st : HelloState) :
    HelloState.command st MENU_OPEN =
      (st, [Effect.open_file_req st.handle helloOpenFileOptions]) ∧
    helloOpenFileOptions.show_hidden = true ∧
    helloOpenFileOptions.allowed_types =
      some [FileSpec.new "Rust Files" ["rs", "toml"], FileSpec.TEXT,
        FileSpec.JPG] :=
  ⟨rfl, rfl, rfl⟩

/-- C3: after every `size(s)` callback the handler's cached size equals `s`,
for both handlers, and after any sequence of `size` callbacks ending in
`size(s)` the cached size is that final `s`. -/
theorem size_callback_caches_value :
    (∀ (st : HelloState) (s : Size),
        ((HelloState.size_event st s).1).size = s) ∧
    (∀ (st : HelloState) (l : List Size) (s : Size),
        (HelloState.applySizes st (l ++ [s])).size = s) ∧
    (∀ (st : ChildHandler) (s : Size),
        ((ChildHandler.size_event st s).1).size = s) ∧
    (∀ (st : ChildHandler) (l : List Size) (s : Size),
        (ChildHandler.applySizes st (l ++ [s])).size = s) := by
  refine ⟨fun st s => rfl, ?_, fun st s => rfl, ?_⟩
  · intro st l s
    induction l generalizing st with
    | nil => rfl
    | cons a rest ih => exact ih ((HelloState.size_event st a).1)
  · intro st l s
    induction l generalizing st with
    | nil => rfl
    | cons a rest ih => exact ih ((ChildHandler.size_event st a).1)

/-- C4: the menu bar of `main` is one enabled dropdown whose displayed label
is `File`, holding exactly three leaf items in the order Open = 0x101,
Exit = 0x100, Layout = 0x102, each with a hotkey and enabled; the three ids
are pairwise distinct and none is 0. -/
theorem menubar_structure :
    menubar.entries =
      [MenuEntry.dropdown file_menu.entries "&File" true] ∧
    stripMnemonic "&File" = "File" ∧
    file_menu.entries.map MenuEntry.commandId =
      [MENU_OPEN, MENU_EXIT, MENU_LAYOUT] ∧
    file_menu.entries.all MenuEntry.isLeaf = true ∧
    file_menu.entries.all MenuEntry.hasHotkey = true ∧
    file_menu.entries.all MenuEntry.isEnabled = true ∧
    List.Pairwise Ne [MENU_OPEN, MENU_EXIT, MENU_LAYOUT] ∧
    MENU_OPEN ≠ 0 ∧ MENU_EXIT ≠ 0 ∧ MENU_LAYOUT ≠ 0 := by
  refine ⟨rfl, by decide, rfl, rfl, rfl, rfl, ?_, ?_, ?_, ?_⟩ <;> decide

/-- C5: `main` configures the child builder with parent = the top-level
window's handle, position (10, 10) and size 200 × 150, and its trace shows
both windows (child first, then top-level) after both builds succeed and
before running the loop. -/
theorem main_child_window_setup :
    childBuilder.parent = some mainWindow ∧
    childBuilder.position = some (Point.new 10 10) ∧
    childBuilder.size = some (Size.new 200 150) ∧
    mainTrace[0]? = some (MainStep.build helloBuilder mainWindow) ∧
    mainTrace[1]? = some (MainStep.build childBuilder childWindow) ∧
    mainTrace[2]? = some (MainStep.show_window childWindow) ∧
    mainTrace[3]? = some (MainStep.show_window mainWindow) ∧
    mainTrace[4]? = some MainStep.run :=
  ⟨rfl, rfl, rfl, rfl, rfl, rfl, rfl, rfl⟩

/-- C6: after `connect(h)`, either handler's stored handle is a clone of `h`
referring to the same native window, every other field is unchanged, and no
action is issued. -/
theorem connect_stores_handle_clone :
    (∀ (st : HelloState) (h : WindowHandle),
        (HelloState.connect st h).1.handle = h.clone ∧
        WindowHandle.sameWindow ((HelloState.connect st h).1.handle) h ∧
        (HelloState.connect st h).1.size = st.size ∧
        (HelloState.connect st h).2 = []) ∧
    (∀ (st : ChildHandler) (h : WindowHandle),
        (ChildHandler.connect st h).1.handle = h.clone ∧
        WindowHandle.sameWindow ((ChildHandler.connect st h).1.handle) h ∧
        (ChildHandler.connect st h).1.size = st.size ∧
        (ChildHandler.connect st h).1.parent_handle = st.parent_handle ∧
        (ChildHandler.connect st h).2 = []) :=
  ⟨fun _ _ => ⟨rfl, rfl, rfl, rfl⟩, fun _ _ => ⟨rfl, rfl, rfl, rfl, rfl⟩⟩

/-- C7: for every command id outside {0x100, 0x101, 0x102},
`HelloState::command` leaves the state unchanged and only logs the id; for
every id whatsoever, `ChildHandler::command` does the same. -/
theorem unknown_command_only_logs :
    (∀ (st : HelloState) (id : Nat),
        id ≠ MENU_EXIT → id ≠ MENU_OPEN → id ≠ MENU_LAYOUT →
        HelloState.command st id =
          (st, [Effect.logNat "unexpected id" id])) ∧
    (∀ (st : ChildHandler) (id : Nat),
        ChildHandler.command st id =
          (st, [Effect.logNat "child unexpected id" id])) := by
  refine ⟨?_, fun st id => rfl⟩
  intro st id h1 h2 h3
  simp [HelloState.command, h1, h2, h3]

/-- C7 witness: the unknown id 7 delivered to the default `HelloState` is
only logged. -/
theorem unknown_command_only_logs_witness :
    HelloState.command HelloState.default 7 =
      (HelloState.default, [Effect.logNat "unexpected id" 7]) :=
  unknown_command_only_logs.1 HelloState.default 7 (by decide) (by decide)
    (by decide)

/-- C8: on `request_close`, each handler closes its own stored handle and
changes none of its fields. -/
theorem request_close_closes_own_handle :
    (∀ st : HelloState,
        HelloState.request_close st = (st, [Effect.close st.handle])) ∧
    (∀ st : ChildHandler,
        ChildHandler.request_close st = (st, [Effect.close st.handle])) :=
  ⟨fun _ => rfl, fun _ => rfl⟩

/-- C9: for every key event, both handlers' `key_down` callbacks return
`false` and leave the handler state unchanged. -/
theorem key_down_returns_false :
    (∀ (st : HelloState) (e : KeyEvent),
        (HelloState.key_down st e).2.2 = false ∧
        (HelloState.key_down st e).1 = st) ∧
    (∀ (st : ChildHandler) (e : KeyEvent),
        (ChildHandler.key_down st e).2.2 = false ∧
        (ChildHandler.key_down st e).1 = st) :=
  ⟨fun _ _ => ⟨rfl, rfl⟩, fun _ _ => ⟨rfl, rfl⟩⟩

/-- C10: for both handlers, key_up, wheel, mouse_down, mouse_up, timer,
got_focus and lost_focus — and for `ChildHandler` also destroy — leave the
whole handler state unchanged and issue only log output (no window-handle or
Application action); mouse_move leaves the state unchanged and issues the
single handle action set_cursor(Arrow) on the stored handle, plus a log. -/
theorem notification_callbacks_pure :
    (∀ (st : HelloState) (e : KeyEvent),
        (HelloState.key_up st e).1 = st ∧
        ((HelloState.key_up st e).2).all Effect.isLog = true) ∧
    (∀ (st : HelloState) (e : MouseEvent),
        (HelloState.wheel st e).1 = st ∧
        ((HelloState.wheel st e).2).all Effect.isLog = true) ∧
    (∀ (st : HelloState) (e : MouseEvent),
        (HelloState.mouse_down st e).1 = st ∧
        ((HelloState.mouse_down st e).2).all Effect.isLog = true) ∧
    (∀ (st : HelloState) (e : MouseEvent),
        (HelloState.mouse_up st e).1 = st ∧
        ((HelloState.mouse_up st e).2).all Effect.isLog = true) ∧
    (∀ (st : HelloState) (t : TimerToken),
        (HelloState.timer st t).1 = st ∧
        ((HelloState.timer st t).2).all Effect.isLog = true) ∧
    (∀ st : HelloState,
        (HelloState.got_focus st).1 = st ∧
        ((HelloState.got_focus st).2).all Effect.isLog = true) ∧
    (∀ st : HelloState,
        (HelloState.lost_focus st).1 = st ∧
        ((HelloState.lost_focus st).2).all Effect.isLog = true) ∧
    (∀ (st : HelloState) (e : MouseEvent),
        HelloState.mouse_move st e =
          (st, [Effect.set_cursor st.handle Cursor.Arrow,
                Effect.logMouse "mouse_move" e])) ∧
    (∀ (st : ChildHandler) (e : KeyEvent),
        (ChildHandler.key_up st e).1 = st ∧
        ((ChildHandler.key_up st e).2).all Effect.isLog = true) ∧
    (∀ (st : ChildHandler) (e : MouseEvent),
        (ChildHandler.wheel st e).1 = st ∧
        ((ChildHandler.wheel st e).2).all Effect.isLog = true) ∧
    (∀ (st : ChildHandler) (e : MouseEvent),
        (ChildHandler.mouse_down st e).1 = st ∧
        ((ChildHandler.mouse_down st e).2).all Effect.isLog = true) ∧
    (∀ (st : ChildHandler) (e : MouseEvent),
        (ChildHandler.mouse_up st e).1 = st ∧
        ((ChildHandler.mouse_up st e).2).all Effect.isLog = true) ∧
    (∀ (st : ChildHandler) (t : TimerToken),
        (ChildHandler.timer st t).1 = st ∧
        ((ChildHandler.timer st t).2).all Effect.isLog = true) ∧
    (∀ st : ChildHandler,
        (ChildHandler.got_focus st).1 = st ∧
        ((ChildHandler.got_focus st).2).all Effect.isLog = true) ∧
    (∀ st : ChildHandler,
        (ChildHandler.lost_focus st).1 = st ∧
        ((ChildHandler.lost_focus st).2).all Effect.isLog = true) ∧
    (∀ st : ChildHandler,
        (ChildHandler.destroy st).1 = st ∧
        ((ChildHandler.destroy st).2).all Effect.isLog = true) ∧
    (∀ (st : ChildHandler) (e : MouseEvent),
        ChildHandler.mouse_move st e =
          (st, [Effect.set_cursor st.handle Cursor.Arrow,
                Effect.logMouse "child mouse_move" e])) :=
  ⟨fun _ _ => ⟨rfl, rfl⟩, fun _ _ => ⟨rfl, rfl⟩, fun _ _ => ⟨rfl, rfl⟩,
   fun _ _ => ⟨rfl, rfl⟩, fun _ _ => ⟨rfl, rfl⟩, fun _ => ⟨rfl, rfl⟩,
   fun _ => ⟨rfl, rfl⟩, fun _ _ => rfl, fun _ _ => ⟨rfl, rfl⟩,
   fun _ _ => ⟨rfl, rfl⟩, fun _ _ => ⟨rfl, rfl⟩, fun _ _ => ⟨rfl, rfl⟩,
   fun _ _ => ⟨rfl, rfl⟩, fun _ => ⟨rfl, rfl⟩, fun _ => ⟨rfl, rfl⟩,
   fun _ => ⟨rfl, rfl⟩, fun _ _ => rfl⟩

end ChildWindow
